import Mathlib

/-!
Verification of the query-construction, iteration and caching layer of the
prom repository (src/prom/query.py and src/prom/interface/sqlite.py).

The Python classes are shallowly embedded: the mutable query-builder state
becomes a structure that the fluent methods transform, the while-loop of the
chunked iterator becomes fuel-based recursion, and the backend adapter
(whose implementation lives in modules that are not part of the sources,
prom/interface/base.py and prom/utils.py) is modelled from the spec where it
is needed; each such definition carries a doc comment saying so.
-/

namespace Prom

/-- Scalar Python values that appear as field values in criteria. -/
inductive Scalar
  | noneV
  | int (n : Int)
  | str (s : String)
deriving DecidableEq, Repr

/-- A Python value as stored in a criterion: either a scalar or a list of
scalars (`in`/`nin` criteria hold lists after `make_list` normalisation). -/
inductive PyVal
  | scalar (s : Scalar)
  | list (xs : List Scalar)
deriving DecidableEq, Repr

/-- Python truthiness of a value: `None`, `0`, the empty string and the empty
list are falsy, everything else is truthy. -/
def PyVal.truthy : PyVal → Bool
  | .scalar .noneV => false
  | .scalar (.int n) => n != 0
  | .scalar (.str s) => s != ""
  | .list xs => !xs.isEmpty

/-- Modelled from the spec: `utils.make_list` (prom/utils.py is not in src/)
normalises values "into an ordered set-like list": a list argument is kept as
is, a non-list argument is wrapped into a one-element list. -/
def make_list : PyVal → PyVal
  | .list xs => .list xs
  | .scalar s => .list [s]

/-- One where-criterion as appended by the `<verb>_field` methods
(query.py 376-445): the list `[verb, field_name, field_val, field_kwargs]`. -/
structure Criterion where
  verb : String
  field : String
  value : PyVal
  kwargs : List (String × PyVal)
deriving DecidableEq, Repr

/-- One sort criterion as appended by `Query.sort_field` (query.py 447-463):
the list `[direction, field_name, field_vals]`. -/
structure SortCrit where
  direction : Int
  field : String
  field_vals : Option (List Scalar)
deriving DecidableEq, Repr

/-- The paging bounds mutated by `set_limit`, `set_offset` and `set_page`
(query.py 500-510).  The Bounds container class itself is not in src/;
modelled from the spec: the triple limit/offset/page, all initially 0,
limit 0 meaning unbounded. -/
structure Bounds where
  limit : Nat
  offset : Nat
  page : Nat
deriving DecidableEq, Repr

/-- Modelled from the spec: `get_bounds` (called at query.py 154 and 524 but
defined in the missing Bounds container) returns
`(limit, offset, limit_paginate)` where the effective offset is
`(page - 1) * limit` when a page is set and the stored offset otherwise, and
`limit_paginate` is the has-more probe `limit + 1`, non-zero only when a
limit is set. -/
def Bounds.get_bounds (b : Bounds) : Nat × Nat × Nat :=
  let limit := b.limit
  let limit_paginate := if 0 < limit then limit + 1 else 0
  let offset := if 0 < b.page then (b.page - 1) * b.limit else b.offset
  (limit, offset, limit_paginate)

/-- The criteria-accumulation state of one `Query` (query.py 231-684):
selected fields, where-criteria, sort-criteria, bounds and the `can_get`
flag set in `Query.__init__` (query.py 270). -/
structure Query where
  fields_set : List (String × PyVal)
  fields_where : List Criterion
  fields_sort : List SortCrit
  bounds : Bounds
  can_get : Bool
deriving DecidableEq, Repr

/-- A freshly constructed query: empty criteria, zero bounds, `can_get` true. -/
def Query.init : Query := ⟨[], [], [], ⟨0, 0, 0⟩, true⟩

/-- `Query.set_limit` (query.py 500-502). -/
def Query.set_limit (q : Query) (limit : Nat) : Query :=
  { q with bounds := { q.bounds with limit := limit } }

/-- `Query.set_offset` (query.py 504-506). -/
def Query.set_offset (q : Query) (offset : Nat) : Query :=
  { q with bounds := { q.bounds with offset := offset } }

/-- `Query.set_page` (query.py 508-510). -/
def Query.set_page (q : Query) (page : Nat) : Query :=
  { q with bounds := { q.bounds with page := page } }

/-- `Query.set_field` (query.py 341-348): appends to the selected-fields
list. -/
def Query.set_field (q : Query) (field : String) (field_val : PyVal) : Query :=
  { q with fields_set := q.fields_set ++ [(field, field_val)] }

/-- `Query.is_field` (query.py 376-379): the optional positional value
defaults to None when omitted. -/
def Query.is_field (q : Query) (field : String) (field_val : Option PyVal)
    (field_kwargs : List (String × PyVal)) : Query :=
  { q with fields_where :=
      q.fields_where ++ [⟨"is", field, field_val.getD (PyVal.scalar Scalar.noneV), field_kwargs⟩] }

/-- `Query.lte_field` (query.py 391-394). -/
def Query.lte_field (q : Query) (field : String) (field_val : Option PyVal)
    (field_kwargs : List (String × PyVal)) : Query :=
  { q with fields_where :=
      q.fields_where ++ [⟨"lte", field, field_val.getD (PyVal.scalar Scalar.noneV), field_kwargs⟩] }

/-- `Query.gte_field` (query.py 401-404). -/
def Query.gte_field (q : Query) (field : String) (field_val : Option PyVal)
    (field_kwargs : List (String × PyVal)) : Query :=
  { q with fields_where :=
      q.fields_where ++ [⟨"gte", field, field_val.getD (PyVal.scalar Scalar.noneV), field_kwargs⟩] }

/-- `Query.between_field` (query.py 386-389): `lte_field(field, low)` then
`gte_field(field, high)`, returning the query itself. -/
def Query.between_field (q : Query) (field : String) (low high : PyVal) : Query :=
  (q.lte_field field (some low) []).gte_field field (some high) []

/-- `Query.in_field` (query.py 411-427): an empty value under an explicit
option key raises ValueError; otherwise, with no option keywords, a falsy
value list clears `can_get`; the criterion is then appended. -/
def Query.in_field (q : Query) (field : String) (field_vals : Option PyVal)
    (field_kwargs : List (String × PyVal)) : Except String Query :=
  let fv : PyVal := match field_vals with
    | some v => make_list v
    | none => PyVal.scalar Scalar.noneV
  if field_kwargs.isEmpty then
    let q := if !fv.truthy then { q with can_get := false } else q
    Except.ok { q with fields_where := q.fields_where ++ [⟨"in", field, fv, field_kwargs⟩] }
  else if field_kwargs.any (fun p => !p.2.truthy) then
    Except.error ("Cannot IN an empty list")
  else
    Except.ok { q with fields_where :=
      q.fields_where ++ [⟨"in", field, fv, field_kwargs.map (fun p => (p.1, make_list p.2))⟩] }

/-- `Query.nin_field` (query.py 429-445): same shape as `in_field` with the
`nin` verb. -/
def Query.nin_field (q : Query) (field : String) (field_vals : Option PyVal)
    (field_kwargs : List (String × PyVal)) : Except String Query :=
  let fv : PyVal := match field_vals with
    | some v => make_list v
    | none => PyVal.scalar Scalar.noneV
  if field_kwargs.isEmpty then
    let q := if !fv.truthy then { q with can_get := false } else q
    Except.ok { q with fields_where := q.fields_where ++ [⟨"nin", field, fv, field_kwargs⟩] }
  else if field_kwargs.any (fun p => !p.2.truthy) then
    Except.error ("Cannot IN an empty list")
  else
    Except.ok { q with fields_where :=
      q.fields_where ++ [⟨"nin", field, fv, field_kwargs.map (fun p => (p.1, make_list p.2))⟩] }

/-- `Query.sort_field` (query.py 447-463): the direction is normalised to
1 or -1 and direction 0 raises ValueError. -/
def Query.sort_field (q : Query) (field : String) (direction : Int)
    (field_vals : Option (List Scalar)) : Except String Query :=
  if 0 < direction then
    Except.ok { q with fields_sort := q.fields_sort ++ [⟨1, field, field_vals⟩] }
  else if direction < 0 then
    Except.ok { q with fields_sort := q.fields_sort ++ [⟨-1, field, field_vals⟩] }
  else
    Except.error ("direction 0 is undefined")

/-- Rows as handed back by the backend adapter; the iteration layer treats
them as opaque. -/
abbrev Row := String

/-- Modelled from the spec: the backend adapter applies LIMIT/OFFSET to the
full result set it holds, a limit of 0 meaning unbounded (spec section 3,
"limit = 0 means unbounded"). -/
def sliceBackend (rows : List Row) (limit offset : Nat) : List Row :=
  if limit = 0 then rows.drop offset else (rows.drop offset).take limit

/-- What one `Query.get` call produced: the rows of the returned `Iterator`,
its `has_more` flag, the final query state, and the `(limit, offset)` of
every backend fetch issued. -/
structure GetResult where
  results : List Row
  has_more : Bool
  q : Query
  calls : List (Nat × Nat)
deriving DecidableEq, Repr

/-- `Query.get` (query.py 512-538) against a backend `rowsb` mapping an
effective (limit, offset) to the fetched rows.  Optional arguments first set
limit and page; with a non-zero probe limit the query's limit is temporarily
raised to `limit + 1`, after the fetch the limit is restored, and a full
probe-sized batch sets `has_more` and drops the probe row (`results.pop(limit)`,
modelled by `eraseIdx`).  `Query._query` (query.py 680-684) returns the
default value `[]` without a backend call when `can_get` is false. -/
def Query.get (q0 : Query) (limitArg pageArg : Option Nat)
    (rowsb : Nat → Nat → List Row) : GetResult :=
  let q := match limitArg with
    | some l => q0.set_limit l
    | none => q0
  let q := match pageArg with
    | some p => q.set_page p
    | none => q
  let (limit, _, limit_paginate) := q.bounds.get_bounds
  let q := if limit_paginate ≠ 0 then q.set_limit limit_paginate else q
  let fetched :=
    if q.can_get then
      let (l2, o2, _) := q.bounds.get_bounds
      (rowsb l2 o2, [(l2, o2)])
    else ([], [])
  let results := fetched.1
  if limit_paginate ≠ 0 then
    let q := q.set_limit limit
    if results.length = limit_paginate then
      ⟨results.eraseIdx limit, true, q, fetched.2⟩
    else
      ⟨results, false, q, fetched.2⟩
  else
    ⟨results, false, q, fetched.2⟩

/-! ### AllIterator (query.py 144-228): transparent chunked traversal -/

/-- One fetched chunk as seen by `AllIterator`: the rows of the `Iterator`
returned by `Query.get` and its `has_more` flag. -/
structure Chunk where
  results : List Row
  has_more : Bool
deriving DecidableEq, Repr

/-- The body of the `while has_more` loop of `AllIterator.__iter__`
(query.py 195-204), with explicit fuel for termination: read the current
chunk's `has_more`, yield the chunk's rows, advance the offset by the chunk
size, fetch the chunk at the new offset (`_set_results`, query.py 206-209),
and loop while the flag that was read is still set.  Returns the yielded
rows and the chunks fetched inside the loop. -/
def allIterLoop (fetch : Nat → Chunk) (chunk_limit : Nat) :
    Nat → Chunk → Nat → List Row × List Chunk
  | 0, _, _ => ([], [])
  | Nat.succ fuel, chunk, offset =>
    let hm := chunk.has_more
    let offset2 := offset + chunk_limit
    let next := fetch offset2
    if hm then
      let rest := allIterLoop fetch chunk_limit fuel next offset2
      (chunk.results ++ rest.1, next :: rest.2)
    else
      (chunk.results, [next])

/-- A full `AllIterator` traversal over a backend holding `rows`: the chunk
size is the query's limit, 5000 when unset (query.py 153-158); the first
chunk is fetched at the starting offset by `reset` (query.py 211-224); each
fetch is `query.set_offset(offset).get(chunk_limit)` (query.py 207) against
the backend.  Returns the yielded rows and every chunk fetched, in fetch
order. -/
def AllIterator.run (rows : List Row) (q : Query) (fuel : Nat) :
    List Row × List Chunk :=
  let (limit, offset, _) := q.bounds.get_bounds
  let chunk_limit := if limit = 0 then 5000 else limit
  let fetch := fun off =>
    let r := (q.set_offset off).get (some chunk_limit) none (sliceBackend rows)
    Chunk.mk r.results r.has_more
  let first := fetch offset
  let rest := allIterLoop fetch chunk_limit fuel first offset
  (rest.1, first :: rest.2)

/-! ### CacheQuery (query.py 687-748) -/

/-- The class attribute table of `CacheQuery` (query.py 687-691): the one
and only TTL attribute it defines is `cache_ttl = 3600`. -/
def cacheQueryClassAttrs : List (String × Nat) := [("cache_ttl", 3600)]

/-- The single canonical TTL, `CacheQuery.cache_ttl` (query.py 691). -/
def cache_ttl : Nat := 3600

/-- The attribute name the expiry comparison of `cache_get` actually reads
(query.py 718). -/
def cacheGetTtlAttr : String := "cached_ttl"

/-- Class-attribute lookup on `CacheQuery`. -/
def lookupClassAttr (name : String) : Option Nat :=
  (cacheQueryClassAttrs.find? (fun p => p.1 == name)).map (fun p => p.2)

/-- What a Python attribute access can resolve to here: a number, or the
bound callback closure `Query.__getattr__` (query.py 473-488) returns for
any name of the shape `command_field` that is not otherwise defined. -/
inductive PyAttrVal
  | num (n : Nat)
  | callback
deriving DecidableEq, Repr

/-- Attribute access `self.<name>` on a `CacheQuery` instance for the names
used by the cache methods: class attributes first; an undefined name of the
shape `command_field` falls through to `Query.__getattr__`, which returns a
bound callback closure instead of raising (query.py 473-488). -/
def cacheQueryGetattr (name : String) : PyAttrVal :=
  match lookupClassAttr name with
  | some n => PyAttrVal.num n
  | none => PyAttrVal.callback

/-- The Python 2 comparison `x < y` for a number `x`: numeric against a
number; in CPython 2 a number compares as smaller than any non-numeric
object, so against the callback the test is always true. -/
def py2LtNum (x : Nat) : PyAttrVal → Bool
  | PyAttrVal.num n => decide (x < n)
  | PyAttrVal.callback => true

/-- The cache fingerprint.  `CacheQuery.cache_key` (query.py 698-701) is
`make_hash(method_name, fields_set, fields_where, fields_sort)`;
`utils.make_hash` is not in src/.  Modelled from the spec: "a stable hash
over (operation, selectedFields, whereCriteria, sortCriteria) — two
structurally identical queries (same criteria, same order) must hash
identically"; modelled as the tuple itself, an injective fingerprint. -/
structure CacheKey where
  method : String
  fields_set : List (String × PyVal)
  fields_where : List Criterion
  fields_sort : List SortCrit
deriving DecidableEq, Repr

/-- `CacheQuery.cache_key` over the query state. -/
def Query.cache_key (q : Query) (method : String) : CacheKey :=
  ⟨method, q.fields_set, q.fields_where, q.fields_sort⟩

/-- One stored cache entry (query.py 706-709): timestamp and result. -/
structure CacheEntry where
  time : Nat
  result : List Row
deriving DecidableEq, Repr

/-- A `CacheQuery` instance: the query state, the instance attribute
`cached` — present only if some code ever assigned `self.cached`, which
nothing in this module does — and the `cache_hit` flag recorded by `_query`
(query.py 735). -/
structure CacheQuery where
  q : Query
  cachedAttr : Option (List (CacheKey × CacheEntry))
  cache_hit : Bool
deriving DecidableEq, Repr

/-- Python dict assignment `cached[key] = entry`. -/
def upsertEntry : List (CacheKey × CacheEntry) → CacheKey → CacheEntry →
    List (CacheKey × CacheEntry)
  | [], k, e => [(k, e)]
  | (k2, e2) :: rest, k, e =>
    if k2 == k then (k, e) :: rest else (k2, e2) :: upsertEntry rest k e

/-- `CacheQuery.cache_set` (query.py 703-709): reads the store with
`getattr(self, "cached", ...)` — which yields a fresh empty dict when the
attribute is absent — writes the entry into that dict, and never assigns the
dict back to `self`; so when the attribute is absent the write is lost, and
only when some caller had assigned `self.cached` does the shared dict keep
the entry. -/
def CacheQuery.cache_set (cq : CacheQuery) (key : CacheKey) (now : Nat)
    (result : List Row) : CacheQuery :=
  match cq.cachedAttr with
  | some d => { cq with cachedAttr := some (upsertEntry d key ⟨now, result⟩) }
  | none => cq

/-- `CacheQuery.cache_get` (query.py 711-722): looks the key up in
`getattr(self, "cached", ...)`; on a present key it compares the elapsed
time against `self.cached_ttl` — an attribute the class does not define
(it defines `cache_ttl`), resolved by `cacheQueryGetattr` — with Python 2
comparison semantics. -/
def CacheQuery.cache_get (cq : CacheQuery) (key : CacheKey) (now : Nat) :
    Option (List Row) × Bool :=
  let cached := cq.cachedAttr.getD []
  match cached.find? (fun p => p.1 == key) with
  | some p =>
    if py2LtNum (now - p.2.time) (cacheQueryGetattr cacheGetTtlAttr) then
      (some p.2.result, true)
    else (none, false)
  | none => (none, false)

/-- `CacheQuery.cache_invalidate` (query.py 694-696): clears the dict
returned by `getattr(self, "cached", ...)`; when the attribute is absent a
fresh dict is cleared and discarded. -/
def CacheQuery.cache_invalidate (cq : CacheQuery) : CacheQuery :=
  match cq.cachedAttr with
  | some _ => { cq with cachedAttr := some [] }
  | none => cq

/-- `CacheQuery._query` (query.py 724-736): compute the fingerprint, consult
the cache, execute through `Query._query` (query.py 680-684, returning the
default without a backend call when `can_get` is false) on a miss, store on
a miss, and record `cache_hit`.  The fingerprint of these operations is
never empty, so the cache is always consulted.  Returns the result, the new
instance state and the number of backend executions performed. -/
def CacheQuery._query (cq : CacheQuery) (method : String) (now : Nat)
    (backend : Unit → List Row) : List Row × CacheQuery × Nat :=
  let key := cq.q.cache_key method
  let got := cq.cache_get key now
  if got.2 then
    (got.1.getD [], { cq with cache_hit := true }, 0)
  else
    let result := if cq.q.can_get then backend () else []
    let cq := cq.cache_set key now result
    (result, { cq with cache_hit := false }, if cq.q.can_get then 1 else 0)

/-- The class names module prom.query defines (query.py 11, 144, 231, 687). -/
def promQueryClasses : List String := ["Iterator", "AllIterator", "Query", "CacheQuery"]

/-- The global name referenced by the `super(...)` calls of
`CacheQuery.update` (query.py 739) and `CacheQuery.delete` (query.py 745). -/
def updateSuperName : String := "CachedQuery"

/-- The method name `CacheQuery.update`/`delete` invoke to invalidate the
cache (query.py 741 and 747). -/
def invalidateCallName : String := "invalidate"

/-- The method names defined on `Query` (query.py 231-684). -/
def queryMethods : List String :=
  ["interface", "fields", "fields_select", "ref", "copy", "select_field",
   "select_fields", "set_field", "set_fields", "is_field", "not_field",
   "between_field", "lte_field", "lt_field", "gte_field", "gt_field",
   "in_field", "nin_field", "sort_field", "asc_field", "desc_field",
   "set_limit", "set_offset", "set_page", "get", "all", "get_one", "values",
   "value", "pks", "pk", "get_pks", "get_pk", "first", "last", "count",
   "has", "insert", "update", "delete", "raw", "_query", "_split_method"]

/-- The method names defined on `CacheQuery` (query.py 687-748). -/
def cacheQueryMethods : List String :=
  ["cache_invalidate", "cache_key", "cache_set", "cache_get", "_query",
   "update", "delete"]

/-! ### Explicit-order sorting (sqlite.py 314-332) -/

/-- `for i, v in enumerate(vals)` starting at `i`. -/
def enumWhen (i : Nat) : List Scalar → List (Scalar × Nat)
  | [] => []
  | v :: vs => (v, i) :: enumWhen (i + 1) vs

/-- `Interface._normalize_sort_SQL` (sqlite.py 314-332) as the list of
WHEN/THEN pairs of the generated CASE expression: ascending enumerates
`field_vals` as given, descending enumerates `reversed(field_vals)`; the
pair `(v, i)` stands for `WHEN v THEN i`. -/
def normalize_sort_SQL (field_vals : List Scalar) (sort_dir_str : String) :
    List (Scalar × Nat) :=
  if sort_dir_str == "ASC" then enumWhen 0 field_vals
  else enumWhen 0 field_vals.reverse

/-- The rank the CASE expression assigns to a value: the THEN index of the
first matching WHEN arm; a value matching no arm gets the default rank
(placed after all ranked values here). -/
def caseRank (pairs : List (Scalar × Nat)) (dflt : Nat) (v : Scalar) : Nat :=
  match pairs.find? (fun p => p.1 == v) with
  | some p => p.2
  | none => dflt

/-- Stable insertion into a rank-sorted list. -/
def insertByRank (key : Scalar → Nat) (x : Scalar) : List Scalar → List Scalar
  | [] => [x]
  | y :: ys => if key x < key y then x :: y :: ys else y :: insertByRank key x ys

/-- Stable sort by rank. -/
def sortRanked (key : Scalar → Nat) : List Scalar → List Scalar
  | [] => []
  | x :: xs => insertByRank key x (sortRanked key xs)

/-- Modelled from the spec: the backend orders the rows ascending by the
rank the CASE expression assigns ("sort by position in this explicit list",
reversed when the direction is descending); the SQL application of the CASE
lives in prom/interface/base.py, which is not in src/. -/
def sortByExplicit (rows : List Scalar) (field_vals : List Scalar)
    (sort_dir_str : String) : List Scalar :=
  let pairs := normalize_sort_SQL field_vals sort_dir_str
  sortRanked (caseRank pairs field_vals.length) rows

/-! ### Reference-level model of `Query.__deepcopy__` (query.py 307-326)

`copy.deepcopy` is overridden: every `__dict__` value that is a Python list
is copied with `list(val)` — a NEW top-level list whose ELEMENTS are the
same object references — dicts with `dict(val)`, and anything else is
shared.  The entries of `fields_where` are themselves lists (the criterion
cells built by the `<verb>_field` methods), so original and clone end up
holding references to the same criterion cells.  To state this, queries here
hold addresses into an explicit store of criterion cells. -/

/-- The heap of criterion cells; an address is an index. -/
structure CritStore where
  cells : List Criterion
deriving DecidableEq, Repr

/-- Allocate a fresh criterion cell. -/
def CritStore.alloc (st : CritStore) (c : Criterion) : CritStore × Nat :=
  (⟨st.cells ++ [c]⟩, st.cells.length)

/-- A query as a holder of references: `fields_where` is a list of cell
addresses; the scalar containers are as in `Query`. -/
structure RQuery where
  fields_set : List (String × PyVal)
  fields_where : List Nat
  fields_sort : List SortCrit
  bounds : Bounds
deriving DecidableEq, Repr

/-- A freshly constructed query, reference model. -/
def RQuery.init : RQuery := ⟨[], [], [], ⟨0, 0, 0⟩⟩

/-- A `<verb>_field` call in the reference model: build a new criterion
cell and append its address to `fields_where` (query.py 376-445). -/
def RQuery.addWhere (q : RQuery) (st : CritStore) (c : Criterion) :
    RQuery × CritStore :=
  let a := st.alloc c
  ({ q with fields_where := q.fields_where ++ [a.2] }, a.1)

/-- `Query.set_limit` in the reference model. -/
def RQuery.set_limit (q : RQuery) (limit : Nat) : RQuery :=
  { q with bounds := { q.bounds with limit := limit } }

/-- `Query.__deepcopy__` (query.py 311-326): `fields_set`, `fields_where`
and `fields_sort` are lists, copied with `list(val)` — a fresh top-level
list holding the SAME element references, hence the same address list here;
the Bounds container is not in src/ and per the spec the clone "copies every
ordered list and mapping by value", so bounds are copied; the backend/schema
handle is shared and carries no state modelled here. -/
def RQuery.clone (q : RQuery) : RQuery :=
  { fields_set := q.fields_set
    fields_where := q.fields_where
    fields_sort := q.fields_sort
    bounds := q.bounds }

/-- In-place mutation of the criterion entry referenced by position `i` of
`q.fields_where` — Python `q.fields_where[i][2] = v` — which updates the
shared store cell. -/
def RQuery.mutateCritValue (q : RQuery) (st : CritStore) (i : Nat) (v : PyVal) :
    CritStore :=
  match q.fields_where[i]? with
  | some a =>
    match st.cells[a]? with
    | some c => ⟨st.cells.set a { c with value := v }⟩
    | none => st
  | none => st

/-- The where-criteria of a query as read through the store. -/
def RQuery.whereValues (q : RQuery) (st : CritStore) : List (Option Criterion) :=
  q.fields_where.map (fun a => st.cells[a]?)

/-! ### Concrete instances used by the witnesses and counterexamples -/

/-- The 5 backend rows of the chunked-traversal test. -/
def c5rows : List Row := ["A", "B", "C", "D", "E"]

/-- A query with limit 2, the chunk size of the test. -/
def c5query : Query := Query.init.set_limit 2

/-- The backend of the has-more-probe witness: 5 rows behind LIMIT/OFFSET. -/
def c6backend : Nat → Nat → List Row := sliceBackend c5rows

/-- A query with a single `is` criterion in the reference model. -/
def c7state : RQuery × CritStore :=
  RQuery.init.addWhere ⟨[]⟩ ⟨"is", "foo", PyVal.scalar (Scalar.int 1), []⟩

/-- The explicit order list of the sorting test. -/
def c9vals : List Scalar := [Scalar.int 30, Scalar.int 10, Scalar.int 20]

/-- The stored rows of the sorting test, by the sorted field's value. -/
def c9rows : List Scalar := [Scalar.int 10, Scalar.int 20, Scalar.int 30]

/-- A concrete cache fingerprint. -/
def c1key : CacheKey := ⟨"get", [], [], []⟩

/-- A `CacheQuery` whose `cached` attribute was assigned by a caller and
holds one entry stored at time 0. -/
def c1cq : CacheQuery := ⟨Query.init, some [(c1key, ⟨0, ["r"]⟩)], false⟩

/-- A `CacheQuery` as this module constructs them: no `cached` attribute. -/
def c2cq : CacheQuery := ⟨Query.init, none, false⟩

/-- The name of the canonical TTL class attribute (query.py 691). -/
def cacheTtlAttr : String := "cache_ttl"

/-- The name of the invalidation method `CacheQuery` defines (query.py 694). -/
def cacheInvalidateName : String := "cache_invalidate"

/-- The operation of the double-execution scenario. -/
def c2method : String := "get"

/-- A backend stub returning one row, for counting executions. -/
def c2backend : Unit → List Row := fun _ => ["r"]

/-! ## Helper lemmas -/

/-- Removing the index right past the end of an (n+1)-element list keeps the
first n elements. -/
theorem eraseIdx_last_of_length (l : List Row) (n : Nat) (h : l.length = n + 1) :
    l.eraseIdx n = l.take n := by
  rw [List.eraseIdx_eq_take_drop_succ]
  rw [show n + 1 = l.length from h.symm, List.drop_length, List.append_nil]

/-- Reading in-range addresses is unaffected by allocating a fresh cell at
the end of the store. -/
theorem map_getElem?_append (addrs : List Nat) (cells : List Criterion)
    (c : Criterion) (h : ∀ a ∈ addrs, a < cells.length) :
    addrs.map (fun a => (cells ++ [c])[a]?) = addrs.map (fun a => cells[a]?) := by
  induction addrs with
  | nil => rfl
  | cons x xs ih =>
    have hx : x < cells.length := h x (by simp)
    have hxs : ∀ a ∈ xs, a < cells.length := fun a ha => h a (by simp [ha])
    simp [List.getElem?_append_left hx, ih hxs]

/-- Indexing the enumeration of a list. -/
theorem enumWhen_getElem? (vs : List Scalar) (k i : Nat) :
    (enumWhen k vs)[i]? = (vs[i]?).map (fun v => (v, k + i)) := by
  induction vs generalizing k i with
  | nil => simp [enumWhen]
  | cons v vs ih =>
    cases i with
    | zero => simp [enumWhen]
    | succ j =>
      simp [enumWhen, ih vs.length.succ j, ih (k + 1) j, Nat.add_assoc,
        Nat.add_comm 1 j]

/-- `Query._query` (query.py 680-684): with `can_get` cleared, `get` returns
the empty default and issues no backend call. -/
theorem get_of_not_can_get (q : Query) (la pa : Option Nat)
    (rowsb : Nat → Nat → List Row) (h : q.can_get = false) :
    (q.get la pa rowsb).results = [] ∧ (q.get la pa rowsb).calls = [] := by
  cases la <;> cases pa <;>
    simp only [Query.get, Query.set_limit, Query.set_page, Bounds.get_bounds, h] <;>
    split <;> simp_all

/-! ## Claim theorems -/

/-- C10: for every field name f and values low, high, `between_field(f, low,
high)` appends exactly two where-criteria, in order an `lte` criterion on f
with value low followed by a `gte` criterion on f with value high, returns
the query itself, and changes no other query state. -/
theorem C10_between_field_appends (q : Query) (f : String) (low high : PyVal) :
    q.between_field f low high =
      { q with fields_where := q.fields_where ++
          [⟨"lte", f, low, []⟩, ⟨"gte", f, high, []⟩] } := by
  simp [Query.between_field, Query.lte_field, Query.gte_field]

/-- C4: `in_field` (and `nin_field`) called with an empty explicit value
list and no option keywords clears `can_get` without raising, and a
subsequent execution of `get` returns the empty-list default with zero
backend calls; the same verb with an option key holding an empty list
raises ValueError immediately. -/
theorem C4_empty_in_clears_can_get (q : Query) (f k : String) (w : Option PyVal)
    (rowsb : Nat → Nat → List Row) :
    q.in_field f (some (PyVal.list [])) [] =
      Except.ok { q with
        can_get := false,
        fields_where := q.fields_where ++ [⟨"in", f, PyVal.list [], []⟩] } ∧
    q.nin_field f (some (PyVal.list [])) [] =
      Except.ok { q with
        can_get := false,
        fields_where := q.fields_where ++ [⟨"nin", f, PyVal.list [], []⟩] } ∧
    (({ q with can_get := false } : Query).get none none rowsb).results = [] ∧
    (({ q with can_get := false } : Query).get none none rowsb).calls = [] ∧
    q.in_field f w [(k, PyVal.list [])] = Except.error ("Cannot IN an empty list") ∧
    q.nin_field f w [(k, PyVal.list [])] = Except.error ("Cannot IN an empty list") := by
  refine ⟨rfl, rfl, ?_, ?_, ?_, ?_⟩
  · exact (get_of_not_can_get _ none none rowsb rfl).1
  · exact (get_of_not_can_get _ none none rowsb rfl).2
  · cases w <;> rfl
  · cases w <;> rfl

/-- C5 counterexample: the chunk-2 traversal of the 5 backend rows A..E does
not make exactly 3 chunk fetches — the loop body of `AllIterator.__iter__`
fetches the next chunk before re-testing the flag, so a fourth, empty chunk
is fetched after the chunk that reported no more data. -/
theorem C5_counterexample :
    ¬ ((AllIterator.run c5rows c5query 10).1 = c5rows ∧
       (AllIterator.run c5rows c5query 10).2.length = 3) := by decide

/-- C5 amended: the chunk-2 traversal over the 5 backend rows A..E yields
exactly A,B,C,D,E, each once and in order, across exactly 4 chunk fetches —
the chunks A,B / C,D / E and a final empty chunk fetched after the chunk
that reported no more data — with `has_more` true for the first two fetched
chunks and false for the last two; the offset is advanced by the chunk size
after every yielded chunk, and iteration terminates once the flag read from
the previously fetched chunk is clear. -/
theorem C5_chunked_iteration_amended :
    (AllIterator.run c5rows c5query 10).1 = ["A", "B", "C", "D", "E"] ∧
    (AllIterator.run c5rows c5query 10).2.map Chunk.results =
      [["A", "B"], ["C", "D"], ["E"], []] ∧
    (AllIterator.run c5rows c5query 10).2.map Chunk.has_more =
      [true, true, false, false] := by decide

/-- C7 counterexample: `copy()` is not independent for in-place mutation of
an existing criterion entry — `__deepcopy__` copies `fields_where` with
`list(val)`, so clone and original share the criterion cells, and mutating
the criterion reached through the clone changes what the original reads. -/
theorem C7_counterexample :
    c7state.1.whereValues
        ((c7state.1.clone).mutateCritValue c7state.2 0
          (PyVal.scalar (Scalar.int 2))) ≠
      c7state.1.whereValues c7state.2 := by decide

/-- C7 amended: the clone produced by `copy()` is independent of the
original for appending — its address list is a fresh copy, so appending a
where-criterion through the clone allocates a new cell and leaves every
criterion the original reads unchanged — but the clone holds references to
the same criterion cells as the original (shallow one-level copy), so
in-place mutation of an existing criterion entry is visible through both;
the backend/schema handle is likewise shared. -/
theorem C7_clone_shallow_amended (q : RQuery) (st : CritStore) (c : Criterion)
    (h : ∀ a ∈ q.fields_where, a < st.cells.length) :
    (q.clone).fields_where = q.fields_where ∧
    ((q.clone).addWhere st c).1.fields_where =
      q.fields_where ++ [st.cells.length] ∧
    q.whereValues ((q.clone).addWhere st c).2 = q.whereValues st := by
  refine ⟨rfl, rfl, ?_⟩
  simpa [RQuery.whereValues, RQuery.addWhere, RQuery.clone, CritStore.alloc]
    using map_getElem?_append q.fields_where st.cells c h

/-- C7 amended witness at the one-criterion query. -/
theorem C7_clone_shallow_amended_witness :
    (c7state.1.clone).fields_where = c7state.1.fields_where ∧
    ((c7state.1.clone).addWhere c7state.2
        ⟨"gt", "bar", PyVal.scalar (Scalar.int 5), []⟩).1.fields_where =
      c7state.1.fields_where ++ [c7state.2.cells.length] ∧
    c7state.1.whereValues ((c7state.1.clone).addWhere c7state.2
        ⟨"gt", "bar", PyVal.scalar (Scalar.int 5), []⟩).2 =
      c7state.1.whereValues c7state.2 :=
  C7_clone_shallow_amended c7state.1 c7state.2
    ⟨"gt", "bar", PyVal.scalar (Scalar.int 5), []⟩ (by decide)

/-- C1: the expiry check of `cache_get` does not compare against the single
canonical TTL field `cache_ttl` — it reads `cached_ttl`, a name the class
does not define, which resolves through `Query.__getattr__` to a bound
callback, and the Python 2 comparison of a number against that callback is
always true: an entry aged 4000 seconds, past the canonical 3600-second
TTL, is still returned as a hit. -/
theorem C1_cached_ttl_attr_bug :
    lookupClassAttr cacheGetTtlAttr = none ∧
    lookupClassAttr cacheTtlAttr = some cache_ttl ∧
    cacheQueryGetattr cacheGetTtlAttr = PyAttrVal.callback ∧
    cache_ttl ≤ 4000 ∧
    c1cq.cache_get c1key 4000 = (some ["r"], true) := by decide

/-- C2: the first execution does not store its result in any cache reachable
from the instance — `cache_set` writes into the fresh dict that
`getattr(self, "cached", ...)` returns and never assigns it back — so a
second identical execution within the TTL performs a second backend call
and records `cache_hit` false. -/
theorem C2_cache_store_never_persists (cq : CacheQuery) (m : String)
    (t1 t2 : Nat) (backend : Unit → List Row)
    (hattr : cq.cachedAttr = none) (hcan : cq.q.can_get = true)
    (hwithin : t2 - t1 < cache_ttl) :
    (CacheQuery._query cq m t1 backend).2.2 = 1 ∧
    (CacheQuery._query ((CacheQuery._query cq m t1 backend).2.1) m t2
        backend).2.2 = 1 ∧
    (CacheQuery._query ((CacheQuery._query cq m t1 backend).2.1) m t2
        backend).2.1.cache_hit = false ∧
    (CacheQuery._query ((CacheQuery._query cq m t1 backend).2.1) m t2
        backend).2.1.cachedAttr = none := by
  simp [CacheQuery._query, CacheQuery.cache_get, CacheQuery.cache_set,
    hattr, hcan]

/-- C2 witness: two back-to-back executions, 10 time units apart. -/
theorem C2_cache_store_never_persists_witness :
    (CacheQuery._query c2cq c2method 0 c2backend).2.2 = 1 ∧
    (CacheQuery._query ((CacheQuery._query c2cq c2method 0 c2backend).2.1)
        c2method 10 c2backend).2.2 = 1 ∧
    (CacheQuery._query ((CacheQuery._query c2cq c2method 0 c2backend).2.1)
        c2method 10 c2backend).2.1.cache_hit = false ∧
    (CacheQuery._query ((CacheQuery._query c2cq c2method 0 c2backend).2.1)
        c2method 10 c2backend).2.1.cachedAttr = none :=
  C2_cache_store_never_persists c2cq c2method 0 10 c2backend rfl rfl
    (by decide)

/-- C3: `CacheQuery.update` and `delete` cannot clear the cache store — their
`super(...)` calls reference the global name CachedQuery, which no class of
the module defines (the class is named CacheQuery), so calling them raises
NameError; and the invalidation call they would then make names a method
`invalidate` that neither Query nor CacheQuery defines (the defined method
is `cache_invalidate`). -/
theorem C3_update_references_undefined_names :
    promQueryClasses.contains updateSuperName = false ∧
    (queryMethods ++ cacheQueryMethods).contains invalidateCallName = false ∧
    cacheQueryMethods.contains cacheInvalidateName = true := by decide

/-- C6: a bounded get with requested limit n queries the backend once with
effective fetch limit n + 1 and no separate count query; the returned
iterator has `has_more` exactly when the backend returned n + 1 rows, in
which case only the first n rows are kept, otherwise every returned row is
kept; and the query's stored limit is restored to n. -/
theorem C6_has_more_probe (q : Query) (n : Nat) (rowsb : Nat → Nat → List Row)
    (hn : 0 < n) (hcan : q.can_get = true) (hpage : q.bounds.page = 0) :
    (q.get (some n) none rowsb).calls = [(n + 1, q.bounds.offset)] ∧
    (q.get (some n) none rowsb).q.bounds.limit = n ∧
    (q.get (some n) none rowsb).has_more =
      decide ((rowsb (n + 1) q.bounds.offset).length = n + 1) ∧
    (q.get (some n) none rowsb).results =
      (if (rowsb (n + 1) q.bounds.offset).length = n + 1
       then (rowsb (n + 1) q.bounds.offset).take n
       else rowsb (n + 1) q.bounds.offset) := by
  have hn1 : n ≠ 0 := Nat.pos_iff_ne_zero.mp hn
  simp only [Query.get, Query.set_limit, Bounds.get_bounds, hpage]
  simp only [hn, if_pos, if_neg, hcan]
  by_cases hlen : (rowsb (n + 1) q.bounds.offset).length = n + 1 <;>
    simp [hn1, hlen, hn, eraseIdx_last_of_length _ n]

/-- C6 witness: limit 2 over the 5-row backend — fetch limit 3, one call,
`has_more`, first 2 rows kept, limit restored. -/
theorem C6_has_more_probe_witness :
    (c5query.get (some 2) none c6backend).calls = [(3, 0)] ∧
    (c5query.get (some 2) none c6backend).q.bounds.limit = 2 ∧
    (c5query.get (some 2) none c6backend).has_more =
      decide ((c6backend 3 0).length = 3) ∧
    (c5query.get (some 2) none c6backend).results =
      (if (c6backend 3 0).length = 3
       then (c6backend 3 0).take 2
       else c6backend 3 0) :=
  C6_has_more_probe c5query 2 c6backend (by decide) (by decide) (by decide)

/-- C8: after any `set_page p` / `set_limit n` (p positive), the effective
offset computed by the bounds is (p - 1) * n; in particular page 2 with
limit 10 gives effective offset 10; and limit 0 is unbounded — the backend
fetch takes all rows past the offset. -/
theorem C8_page_offset_invariant (q : Query) (p n off : Nat) (rows : List Row)
    (hp : 0 < p) :
    (((q.set_page p).set_limit n).bounds.get_bounds).2.1 = (p - 1) * n ∧
    ((Query.init.set_page 2).set_limit 10).bounds.get_bounds = (10, 10, 11) ∧
    sliceBackend rows 0 off = rows.drop off := by
  refine ⟨?_, by decide, by simp [sliceBackend]⟩
  simp [Query.set_page, Query.set_limit, Bounds.get_bounds, hp]

/-- C8 witness at page 2, limit 10. -/
theorem C8_page_offset_invariant_witness :
    (((Query.init.set_page 2).set_limit 10).bounds.get_bounds).2.1 =
      (2 - 1) * 10 ∧
    ((Query.init.set_page 2).set_limit 10).bounds.get_bounds = (10, 10, 11) ∧
    sliceBackend c5rows 0 3 = c5rows.drop 3 :=
  C8_page_offset_invariant Query.init 2 10 3 c5rows (by decide)

/-- C9: the CASE expression generated for an explicit order list maps the
i-th element of the list (of the reversed list when descending) to rank i,
and ordering rows by that rank yields, for the list 30,10,20 over rows
10,20,30, the literal sequence 30,10,20 ascending and 20,10,30 descending. -/
theorem C9_explicit_order_sort (vs : List Scalar) (i : Nat) :
    (normalize_sort_SQL vs "ASC")[i]? = (vs[i]?).map (fun v => (v, i)) ∧
    (normalize_sort_SQL vs "DESC")[i]? =
      (vs.reverse[i]?).map (fun v => (v, i)) ∧
    sortByExplicit c9rows c9vals "ASC" =
      [Scalar.int 30, Scalar.int 10, Scalar.int 20] ∧
    sortByExplicit c9rows c9vals "DESC" =
      [Scalar.int 20, Scalar.int 10, Scalar.int 30] := by
  have hA : (("ASC" : String) == "ASC") = true := by decide
  have hD : (("DESC" : String) == "ASC") = false := by decide
  refine ⟨?_, ?_, by decide, by decide⟩
  · simp [normalize_sort_SQL, hA, enumWhen_getElem?]
  · simp [normalize_sort_SQL, hD, enumWhen_getElem?]

end Prom
